import Mathlib

/-!
Verification of the placement-email classification pipeline.

The development shallowly embeds the Python modules of the repository:

* `app/filters.py`        — orchestrator `analyze_placement_email` and the
  keyword fallback `_fallback_analysis_keywords`;
* `app/llm_filter.py`     — LLM adapter `analyze_placement_email_llm`, its
  internal fallback `_fallback_placement_analysis`, and the profile store;
* `app/attachment_processor.py` — spreadsheet attachment scanner and the
  notification formatter;
* `app/main.py`           — the `/profile` control endpoint.

Python strings are modelled as Lean `String`s with hand-rolled, kernel-
computable versions of the `str` operations the code uses (`lower`, `title`,
`split`, `in`, `endswith`, `join`) restricted to their ASCII behaviour, which
is the fragment exercised by the code's literals.  External effects (the
Gemini call, pandas spreadsheet parsing, the filesystem) are modelled as
oracle values describing the outcome of each effect, and the functions are
translated branch by branch from the source.
-/

namespace PlacementMail

/-! ## Python string primitives (ASCII fragment) -/

/-- ASCII case fold of one character, as `str.lower` acts on ASCII. -/
def asciiLower (c : Char) : Char :=
  if 'A' ≤ c && c ≤ 'Z' then Char.ofNat (c.toNat + 32) else c

/-- ASCII upcase of one character, as `str.upper` acts on ASCII. -/
def asciiUpper (c : Char) : Char :=
  if 'a' ≤ c && c ≤ 'z' then Char.ofNat (c.toNat - 32) else c

/-- Python `s.lower()` on ASCII text. -/
def pyLower (s : String) : String := ⟨s.data.map asciiLower⟩

/-- Is `c` an ASCII letter (a "cased" character for `str.title`)? -/
def isAsciiAlphaCh (c : Char) : Bool :=
  ('A' ≤ c && c ≤ 'Z') || ('a' ≤ c && c ≤ 'z')

/-- Worker for `pyTitle`: upcase a letter that follows a non-letter,
downcase a letter that follows a letter. -/
def pyTitleAux : Bool → List Char → List Char
  | _, [] => []
  | prevAlpha, c :: cs =>
    (if isAsciiAlphaCh c then (if prevAlpha then asciiLower c else asciiUpper c) else c)
      :: pyTitleAux (isAsciiAlphaCh c) cs

/-- Python `s.title()` on ASCII text. -/
def pyTitle (s : String) : String := ⟨pyTitleAux false s.data⟩

/-- Split a character list at every occurrence of a separator character,
as Python `str.split` with a one-character separator. -/
def splitChar (sep : Char) : List Char → List (List Char)
  | [] => [[]]
  | c :: rest =>
    let r := splitChar sep rest
    if c = sep then [] :: r
    else
      match r with
      | [] => [[c]]
      | h :: t => (c :: h) :: t

/-- Python `s.split(sep)` for a one-character separator (the code only
splits on `"@"` and `"."`). -/
def pySplit (s : String) (sep : Char) : List String :=
  (splitChar sep s.data).map (fun l => ⟨l⟩)

/-- Python substring test `sub in s`. -/
def strContains (s sub : String) : Bool := decide (sub.data <:+: s.data)

/-- Python `s.endswith(suffixStr)`. -/
def strEndsWith (s suffixStr : String) : Bool := decide (suffixStr.data <:+ s.data)

/-- Python `sep.join(parts)`. -/
def pyJoin (sep : String) : List String → String
  | [] => ""
  | [x] => x
  | x :: xs => x ++ sep ++ pyJoin sep xs

/-! ## Data model: the analysis dictionary

`analyze_placement_email_llm` and both fallbacks return a Python dict with
the eight keys below.  A parsed LLM response may lack keys, and a present
key may hold any JSON value, so each field is an `Option` of a small JSON
value type; `none` means "key absent". -/

/-- A JSON value as it can appear in the parsed LLM response (the fragment
the code distinguishes: `null`, booleans and strings). -/
inductive JVal where
  | jnull : JVal
  | jbool (b : Bool) : JVal
  | jstr (s : String) : JVal
deriving DecidableEq, Repr

/-- The analysis dictionary.  The Python key `'type'` is the field
`jobType` (the spec calls it `job_type`). -/
structure AnalysisDict where
  is_placement_related : Option JVal
  company : Option JVal
  role : Option JVal
  deadline : Option JVal
  salary : Option JVal
  location : Option JVal
  jobType : Option JVal
  requirements : Option JVal
deriving DecidableEq, Repr

/-- All eight keys of the dictionary are present. -/
def fullyPopulated (d : AnalysisDict) : Prop :=
  d.is_placement_related.isSome = true ∧ d.company.isSome = true ∧
  d.role.isSome = true ∧ d.deadline.isSome = true ∧ d.salary.isSome = true ∧
  d.location.isSome = true ∧ d.jobType.isSome = true ∧ d.requirements.isSome = true

/-! ## Shared field extraction (`llm_filter.py` 212-226, duplicated verbatim
in `filters.py` 84-98)

Both fallback functions contain the identical company/role extraction block;
it is embedded once. -/

/-- Company extraction: `llm_filter.py` 216-219 / `filters.py` 88-91. -/
def fallbackCompany (sender : String) : String :=
  if strContains sender "@" then
    let domain := pyLower ((pySplit sender '@').getD 1 "")
    if !strContains domain "placements" && !strContains domain "noreply" then
      pyTitle ((pySplit domain '.').getD 0 "")
    else "Unknown"
  else "Unknown"

/-- The fixed ordered role keyword list (`llm_filter.py` 222 / `filters.py` 94). -/
def roleKeywords : List String :=
  ["engineer", "developer", "analyst", "intern", "manager", "associate"]

/-- The role loop with its `break` (`llm_filter.py` 223-226 / `filters.py` 95-98). -/
def roleLoop (subjectLower : String) : List String → String
  | [] => "Position"
  | k :: rest => if strContains subjectLower k then pyTitle k else roleLoop subjectLower rest

/-- Role extraction from the subject. -/
def fallbackRole (subject : String) : String :=
  roleLoop (pyLower subject) roleKeywords

/-! ## `llm_filter.py`: the adapter and its internal fallback -/

/-- `placement_indicators` of `_fallback_placement_analysis` (llm_filter.py 204-207). -/
def placementIndicators : List String :=
  ["placement", "recruitment", "hiring", "career", "job",
   "internship", "cdc", "hr", "interview", "offer"]

/-- `_fallback_placement_analysis` (llm_filter.py 199-237): keyword scan over
the combined `f"{subject} {sender}"` text, plus the shared field extraction. -/
def fallbackPlacementAnalysis (subject sender : String) : AnalysisDict :=
  let textToCheck := pyLower (subject ++ " " ++ sender)
  let isPlacement := placementIndicators.any (fun indicator => strContains textToCheck indicator)
  { is_placement_related := some (.jbool isPlacement)
    company := some (.jstr (fallbackCompany sender))
    role := some (.jstr (fallbackRole subject))
    deadline := some .jnull
    salary := some .jnull
    location := some .jnull
    jobType := some .jnull
    requirements := some .jnull }

/-- The classifier error taxonomy of the specification (spec §7).  The source
never constructs such a value: no path of `analyze_placement_email_llm`
raises. -/
inductive ClassifierError where
  | unavailable : ClassifierError
  | transport : ClassifierError
  | emptyResponse : ClassifierError
  | malformedJson : ClassifierError
  | missingMandatory : ClassifierError
deriving DecidableEq, Repr

/-- Oracle for the outcome of the external LLM interaction, one constructor
per branch the code distinguishes: Gemini not configured (llm_filter.py 130),
`generate_content` raising (caught at 191), a falsy `response.text` (145),
`json.loads` failing after fence stripping (186), or a successfully parsed
dictionary (158). -/
inductive LLMResponse where
  | unavailable : LLMResponse
  | serviceError : LLMResponse
  | empty : LLMResponse
  | malformed : LLMResponse
  | parsed (d : AnalysisDict) : LLMResponse
deriving DecidableEq, Repr

/-- The `expected_fields` default-filling loop (llm_filter.py 166-179):
every absent key is set to its documented default, present keys are kept. -/
def fillExpectedFields (d : AnalysisDict) : AnalysisDict :=
  { is_placement_related := some (d.is_placement_related.getD (.jbool false))
    company := some (d.company.getD (.jstr "Unknown"))
    role := some (d.role.getD (.jstr "Position"))
    deadline := some (d.deadline.getD .jnull)
    salary := some (d.salary.getD .jnull)
    location := some (d.location.getD .jnull)
    jobType := some (d.jobType.getD .jnull)
    requirements := some (d.requirements.getD .jnull) }

/-- `analyze_placement_email_llm` (llm_filter.py 111-196).  The result type
is `Except ClassifierError AnalysisDict` so that a raised `ClassifierError`
could be expressed; tracing the source, every branch `return`s a dictionary
(the error branches return `_fallback_placement_analysis` at 132, 147, 163,
189 and 196), so every branch is `.ok` and no branch is `.error`. -/
def analyze_placement_email_llm (resp : LLMResponse) (subject sender : String) :
    Except ClassifierError AnalysisDict :=
  match resp with
  | .unavailable => .ok (fallbackPlacementAnalysis subject sender)
  | .serviceError => .ok (fallbackPlacementAnalysis subject sender)
  | .empty => .ok (fallbackPlacementAnalysis subject sender)
  | .malformed => .ok (fallbackPlacementAnalysis subject sender)
  | .parsed d =>
    if d.is_placement_related.isNone then
      .ok (fallbackPlacementAnalysis subject sender)
    else
      .ok (fillExpectedFields d)

/-- The five failure conditions of the classifier path: capability
unavailable, transport failure, empty response, malformed JSON, or a parsed
dictionary missing the mandatory `is_placement_related` key. -/
def isClassifierErrorCase : LLMResponse → Bool
  | .unavailable => true
  | .serviceError => true
  | .empty => true
  | .malformed => true
  | .parsed d => d.is_placement_related.isNone

/-! ## `filters.py`: keyword fallback and orchestrator -/

/-- The sender indicator list of `_fallback_analysis_keywords` (filters.py 71). -/
def senderIndicators : List String :=
  ["placements", "cdc", "recruitment", "hr", "careers"]

/-- The placement decision of `_fallback_analysis_keywords` (filters.py
67-82): sender indicators first, then the configured keyword list against
the subject.  `keywords` models the `KEYWORDS` configuration value loaded
from `config/keywords.yaml` (the yaml file is not part of the sources). -/
def keywordMatcher (keywords : List String) (subject sender : String) : Bool :=
  let senderLower := pyLower sender
  if senderIndicators.any (fun indicator => strContains senderLower indicator) then
    true
  else
    keywords.any (fun keyword => strContains (pyLower subject) (pyLower keyword))

/-- `_fallback_analysis_keywords` (filters.py 55-109). -/
def fallbackAnalysisKeywords (keywords : List String) (subject sender : String) :
    AnalysisDict :=
  { is_placement_related := some (.jbool (keywordMatcher keywords subject sender))
    company := some (.jstr (fallbackCompany sender))
    role := some (.jstr (fallbackRole subject))
    deadline := some .jnull
    salary := some .jnull
    location := some .jnull
    jobType := some .jnull
    requirements := some .jnull }

/-- `analyze_placement_email` (filters.py 12-35): try the adapter; the
`except Exception` handler (filters.py 30-35) substitutes
`_fallback_analysis_keywords`.  The handler corresponds to the `.error`
arm, which is unreachable because the adapter returns on every path. -/
def analyze_placement_email (keywords : List String) (resp : LLMResponse)
    (subject sender : String) : AnalysisDict :=
  match analyze_placement_email_llm resp subject sender with
  | .ok r => r
  | .error _ => fallbackAnalysisKeywords keywords subject sender

/-! ## `attachment_processor.py`: the attachment scanner -/

/-- `SEARCH_TERMS` (attachment_processor.py 14-19), with its literal
duplicate `"22BCE1385"`. -/
def SEARCH_TERMS : List String :=
  ["Akkilesh A", "22BCE1385", "Akkilesh", "22BCE1385"]

/-- One entry of the `matches` list of `_search_excel_content`. -/
structure SheetMatch where
  sheet : String
  terms_found : List String
deriving DecidableEq, Repr

/-- The result dictionary of `_search_excel_content` (attachment_processor.py
91-94).  `matchEntries` is the Python key `'matches'` (`matches` is a
reserved token in Lean). -/
structure SearchOutcome where
  found : Bool
  matchEntries : List SheetMatch
deriving DecidableEq, Repr

/-- Oracle for the outcome of reading one spreadsheet payload with pandas.
A sheet is its name paired with the flattened, space-joined string form of
its cells (the value of `' '.join(sheet_data.astype(str).values.flatten())`
before the final `.lower()`). -/
inductive ParseOutcome where
  /-- The engine-specific `pd.read_excel` (line 106/109) succeeds. -/
  | ok (sheets : List (String × String)) : ParseOutcome
  /-- The engine-specific read fails; the plain retry (line 136) succeeds.
  The source only re-reads — the comment "Repeat search logic here if
  needed" marks that no search is performed on the retried frame. -/
  | failPrimaryOkRetry (sheets : List (String × String)) : ParseOutcome
  /-- Both reads fail (a corrupt payload). -/
  | failBoth : ParseOutcome
deriving DecidableEq, Repr

/-- Filesystem events of the transient-file lifecycle. -/
inductive FsEvent where
  | create (path : String) : FsEvent
  | unlink (path : String) : FsEvent
deriving DecidableEq, Repr

/-- The per-sheet body of the search loop (attachment_processor.py 112-130). -/
def searchSheetStep (terms : List String) (acc : SearchOutcome)
    (sheet : String × String) : SearchOutcome :=
  let combined := pyLower sheet.2
  let foundTerms := terms.filter (fun term => strContains combined (pyLower term))
  { found := acc.found || !foundTerms.isEmpty
    matchEntries := if foundTerms.isEmpty then acc.matchEntries
                    else acc.matchEntries ++ [⟨sheet.1, foundTerms⟩] }

/-- The full sheet loop starting from the initial result dictionary. -/
def searchSheets (terms : List String) (sheets : List (String × String)) :
    SearchOutcome :=
  sheets.foldl (searchSheetStep terms) ⟨false, []⟩

/-- `_search_excel_content` (attachment_processor.py 80-151), with the
filesystem trace made explicit.  The temp file is created at line 98; the
`try` body either searches the parsed sheets, or on a read failure retries
the plain read without repeating the search (132-139); the `finally`
(141-146) unlinks the temp file on every one of these exits before the
function returns. -/
def search_excel_content (terms : List String) (tempPath : String)
    (parse : ParseOutcome) : SearchOutcome × List FsEvent :=
  let createdEvents : List FsEvent := [.create tempPath]
  let res : SearchOutcome :=
    match parse with
    | .ok sheets => searchSheets terms sheets
    | .failPrimaryOkRetry _ => ⟨false, []⟩
    | .failBoth => ⟨false, []⟩
  (res, createdEvents ++ [.unlink tempPath])

/-- `_is_excel_file` (attachment_processor.py 72-78). -/
def isExcelFile (filename : String) : Bool :=
  if filename = "" then false
  else
    [".xlsx", ".xls", ".xlsm", ".xlsb"].any
      (fun ext => strEndsWith (pyLower filename) ext)

/-- An attachment: its (possibly missing) filename and the parse oracle for
its payload. -/
structure Attachment where
  filename : Option String
  parse : ParseOutcome
deriving DecidableEq, Repr

/-- One entry of `found_in_files`.  `matchEntries` is the Python key
`'matches'`. -/
structure FoundFile where
  filename : String
  matchEntries : List SheetMatch
deriving DecidableEq, Repr

/-- The result dictionary of `process_excel_attachments`
(attachment_processor.py 31-38). -/
structure ScanResult where
  has_attachments : Bool
  excel_attachments : Nat
  name_found : Bool
  found_in_files : List FoundFile
  total_attachments : Nat
  error : Option String
deriving DecidableEq, Repr

/-- `attachment.filename or "unknown"` (attachment_processor.py 50):
Python `or` also replaces an empty (falsy) string. -/
def effFilename : Option String → String
  | none => "unknown"
  | some s => if s = "" then "unknown" else s

/-- The body of the attachment loop (attachment_processor.py 49-64). -/
def scanStep (terms : List String) (acc : ScanResult) (att : Attachment) :
    ScanResult :=
  let filename := effFilename att.filename
  if isExcelFile filename then
    let acc := { acc with excel_attachments := acc.excel_attachments + 1 }
    let foundInfo := (search_excel_content terms "tmp" att.parse).1
    if foundInfo.found then
      { acc with name_found := true
                 found_in_files := acc.found_in_files ++ [⟨filename, foundInfo.matchEntries⟩] }
    else acc
  else acc

/-- `process_excel_attachments` (attachment_processor.py 21-70). -/
def process_excel_attachments (terms : List String) (atts : List Attachment) :
    ScanResult :=
  let r0 : ScanResult :=
    { has_attachments := false, excel_attachments := 0, name_found := false
      found_in_files := [], total_attachments := atts.length, error := none }
  if atts.isEmpty then r0
  else atts.foldl (scanStep terms) { r0 with has_attachments := true }

/-- `format_attachment_summary` (attachment_processor.py 153-193). -/
def format_attachment_summary (r : ScanResult) : Option String :=
  if !r.has_attachments then none
  else
    let countLine : String :=
      "📎 " ++ toString r.excel_attachments ++ " Excel attachment" ++
        (if r.excel_attachments > 1 then "s" else "") ++ " found"
    let excelParts : List String :=
      if r.excel_attachments > 0 then
        [countLine] ++
          (if r.name_found then
            ["✅ Your name/ID found in attachments!"] ++
              r.found_in_files.flatMap (fun fi =>
                ["  📋 " ++ fi.filename] ++
                  fi.matchEntries.map (fun m =>
                    "    🔍 Found: " ++ pyJoin ", " m.terms_found))
          else ["❌ Your name/ID not found in Excel files"])
      else []
    let errorParts : List String :=
      match r.error with
      | some e => ["⚠️ Error processing attachments: " ++ e]
      | none => []
    let summaryParts := excelParts ++ errorParts
    if summaryParts.isEmpty then none else some (pyJoin "\n" summaryParts)

/-! ## Profile store and the `/profile` endpoint -/

/-- `STUDENT_PROFILE` (llm_filter.py 27-34), as an ordered key-value map. -/
def STUDENT_PROFILE : List (String × String) :=
  [("name", "Akkilesh A"), ("degree", "BTech"), ("year", "4th year"),
   ("university", "VIT Chennai"), ("graduation_year", "2026"),
   ("specialization", "Computer Science & Engineering")]

/-- `update_student_profile` (llm_filter.py 254-273): each kwarg whose key
already exists in the profile overwrites it; unknown keys are logged and
dropped. -/
def update_student_profile (profile : List (String × String))
    (kwargs : List (String × String)) : List (String × String) :=
  kwargs.foldl
    (fun prof kv =>
      if (prof.lookup kv.1).isSome then
        prof.map (fun kv' => if kv'.1 = kv.1 then (kv'.1, kv.2) else kv')
      else prof)
    profile

/-- The `ProfileUpdate` pydantic model (main.py 30-31): the only recognized
field, defaulting to the empty string. -/
structure ProfileUpdate where
  specialization : String
deriving DecidableEq, Repr

/-- The `try` body of the POST handler (main.py 49-60): filter out falsy
values; with no updates left, raise `HTTPException(400)`; otherwise update
the profile and return the success payload. -/
def update_profile_try (profile : List (String × String)) (pd : ProfileUpdate) :
    Except (Nat × String) (List (String × String)) :=
  let updates := [("specialization", pd.specialization)].filter (fun kv => kv.2 ≠ "")
  if updates.isEmpty then .error (400, "No valid updates provided")
  else .ok (update_student_profile profile updates)

/-- The POST `/profile` endpoint `update_profile` (main.py 46-62), returning
the HTTP status of the response and the resulting profile state.  The
`except Exception` handler (61-62) catches every exception from the body —
including the `HTTPException(400)` raised at line 54, since FastAPI's
`HTTPException` derives from `Exception` — and raises `HTTPException(500)`
in its place. -/
def update_profile (profile : List (String × String)) (pd : ProfileUpdate) :
    Nat × List (String × String) :=
  match update_profile_try profile pd with
  | .ok newProf => (200, newProf)
  | .error _ => (500, profile)

/-! ## Auxiliary definitions used by the statements -/

/-- Company extraction as the specification words it: the title-cased first
label of the sender's domain when the sender contains `@` and the (case-
folded) domain contains neither `placements` nor `noreply`, else
`"Unknown"`. -/
def specCompany (sender : String) : String :=
  if strContains sender "@" &&
      !strContains (pyLower ((pySplit sender '@').getD 1 "")) "placements" &&
      !strContains (pyLower ((pySplit sender '@').getD 1 "")) "noreply" then
    pyTitle ((pySplit (pyLower ((pySplit sender '@').getD 1 "")) '.').getD 0 "")
  else "Unknown"

/-- Role extraction as the specification words it: the title-cased first
keyword of the fixed ordered list that occurs in the case-folded subject —
list order, not position in the subject, breaks ties — else `"Position"`. -/
def specRole (subject : String) : String :=
  ((roleKeywords.find? (fun k => strContains (pyLower subject) k)).map pyTitle).getD
    "Position"

/-- Does the attachment contribute a `found_in_files` entry? -/
def scanCond (terms : List String) (att : Attachment) : Bool :=
  isExcelFile (effFilename att.filename) &&
    (search_excel_content terms "tmp" att.parse).1.found

/-- The `found_in_files` contribution of one attachment. -/
def scanEntry (terms : List String) (att : Attachment) : List FoundFile :=
  if scanCond terms att then
    [⟨effFilename att.filename,
      (search_excel_content terms "tmp" att.parse).1.matchEntries⟩]
  else []

/-- Order-preserving de-duplication (keep the first occurrence). -/
def dedupAux (seen : List String) : List String → List String
  | [] => []
  | a :: l => if seen.contains a then dedupAux seen l else a :: dedupAux (a :: seen) l

/-- De-duplicate a term list, keeping first occurrences in order. -/
def dedupStr (l : List String) : List String := dedupAux [] l

/-- De-duplicate the `terms_found` sequence of one sheet match. -/
def dedupMatch (m : SheetMatch) : SheetMatch := ⟨m.sheet, dedupStr m.terms_found⟩

/-- De-duplicate every `terms_found` sequence of a search outcome. -/
def dedupOutcome (o : SearchOutcome) : SearchOutcome :=
  ⟨o.found, o.matchEntries.map dedupMatch⟩

/-- De-duplicate every `terms_found` sequence of a scan result. -/
def dedupScan (r : ScanResult) : ScanResult :=
  { r with found_in_files :=
      r.found_in_files.map (fun f => ⟨f.filename, f.matchEntries.map dedupMatch⟩) }

/-! ## Helper lemmas -/

theorem strContains_iff (s sub : String) :
    strContains s sub = true ↔ sub.data <:+: s.data := by
  simp [strContains]

theorem pyJoin_contains_mem (sep : String) (l : List String) (x : String) (hx : x ∈ l) :
    x.data <:+: (pyJoin sep l).data := by
  induction l with
  | nil => cases hx
  | cons a t ih =>
    cases t with
    | nil =>
      simp only [List.mem_singleton] at hx; subst hx
      exact List.infix_refl _
    | cons b u =>
      rcases List.mem_cons.mp hx with h | h
      · subst h
        show x.data <:+: ((x ++ sep) ++ pyJoin sep (b :: u)).data
        rw [String.data_append]
        apply List.IsPrefix.isInfix
        rw [String.data_append]
        simp [List.append_assoc]
      · show x.data <:+: ((a ++ sep) ++ pyJoin sep (b :: u)).data
        rw [String.data_append]
        exact (ih h).trans (List.suffix_append _ _).isInfix

theorem dedupStr_isEmpty (l : List String) : (dedupStr l).isEmpty = l.isEmpty := by
  cases l <;> rfl

theorem roleLoop_eq_find (sl : String) (l : List String) :
    roleLoop sl l
      = ((l.find? (fun k => strContains sl k)).map pyTitle).getD "Position" := by
  induction l with
  | nil => rfl
  | cons k rest ih =>
    rw [roleLoop, List.find?_cons]
    cases h : strContains sl k <;> simp [h, ih]

theorem scanStep_fields (terms : List String) (acc : ScanResult) (att : Attachment) :
    (scanStep terms acc att).name_found = (acc.name_found || scanCond terms att) ∧
    (scanStep terms acc att).found_in_files
      = acc.found_in_files ++ scanEntry terms att ∧
    (scanStep terms acc att).excel_attachments
      = acc.excel_attachments
          + (if isExcelFile (effFilename att.filename) then 1 else 0) ∧
    (scanStep terms acc att).has_attachments = acc.has_attachments ∧
    (scanStep terms acc att).total_attachments = acc.total_attachments ∧
    (scanStep terms acc att).error = acc.error := by
  unfold scanStep
  cases hex : isExcelFile (effFilename att.filename) <;>
    cases hf : (search_excel_content terms "tmp" att.parse).1.found <;>
      simp [scanCond, scanEntry, hex, hf]

theorem foldl_scan_fields (terms : List String) (l : List Attachment) :
    ∀ acc : ScanResult,
      (l.foldl (scanStep terms) acc).name_found
        = (acc.name_found || l.any (scanCond terms)) ∧
      (l.foldl (scanStep terms) acc).found_in_files
        = acc.found_in_files ++ l.flatMap (scanEntry terms) ∧
      (l.foldl (scanStep terms) acc).excel_attachments
        = acc.excel_attachments
            + l.countP (fun a => isExcelFile (effFilename a.filename)) := by
  induction l with
  | nil => intro acc; simp
  | cons a t ih =>
    intro acc
    have hstep := scanStep_fields terms acc a
    have hrec := ih (scanStep terms acc a)
    refine ⟨?_, ?_, ?_⟩
    · rw [List.foldl_cons, hrec.1, hstep.1, List.any_cons, Bool.or_assoc]
    · rw [List.foldl_cons, hrec.2.1, hstep.2.1, List.flatMap_cons, List.append_assoc]
    · rw [List.foldl_cons, hrec.2.2, hstep.2.2.1, List.countP_cons]
      by_cases h : isExcelFile (effFilename a.filename) = true
      · simp only [h, if_true]
        omega
      · simp only [h, if_false]
        omega

theorem filter_dedup_search_terms (p : String → Bool) :
    (dedupStr SEARCH_TERMS).filter p = dedupStr (SEARCH_TERMS.filter p) := by
  have hd : dedupStr SEARCH_TERMS = ["Akkilesh A", "22BCE1385", "Akkilesh"] := by decide
  rw [hd]
  cases hA : p "Akkilesh A" <;> cases hB : p "22BCE1385" <;> cases hC : p "Akkilesh" <;>
    simp [SEARCH_TERMS, dedupStr, dedupAux, List.filter_cons, hA, hB, hC]

theorem searchSheetStep_dedup (acc : SearchOutcome) (sheet : String × String) :
    searchSheetStep (dedupStr SEARCH_TERMS) (dedupOutcome acc) sheet
      = dedupOutcome (searchSheetStep SEARCH_TERMS acc sheet) := by
  simp only [searchSheetStep, dedupOutcome, filter_dedup_search_terms, dedupStr_isEmpty]
  cases he : (SEARCH_TERMS.filter
      (fun term => strContains (pyLower sheet.2) (pyLower term))).isEmpty <;>
    simp [he, dedupMatch]

theorem searchSheets_dedup_fold (sheets : List (String × String)) :
    ∀ acc : SearchOutcome,
      sheets.foldl (searchSheetStep (dedupStr SEARCH_TERMS)) (dedupOutcome acc)
        = dedupOutcome (sheets.foldl (searchSheetStep SEARCH_TERMS) acc) := by
  induction sheets with
  | nil => intro acc; rfl
  | cons s t ih =>
    intro acc
    rw [List.foldl_cons, List.foldl_cons, searchSheetStep_dedup, ih]

theorem search_excel_dedup (path : String) (parse : ParseOutcome) :
    (search_excel_content (dedupStr SEARCH_TERMS) path parse).1
      = dedupOutcome ((search_excel_content SEARCH_TERMS path parse).1) := by
  cases parse with
  | ok sheets => exact searchSheets_dedup_fold sheets ⟨false, []⟩
  | failPrimaryOkRetry sheets => rfl
  | failBoth => rfl

theorem scanStep_dedup (acc : ScanResult) (att : Attachment) :
    scanStep (dedupStr SEARCH_TERMS) (dedupScan acc) att
      = dedupScan (scanStep SEARCH_TERMS acc att) := by
  unfold scanStep dedupScan
  rw [search_excel_dedup]
  cases hex : isExcelFile (effFilename att.filename) <;>
    cases hf : (search_excel_content SEARCH_TERMS "tmp" att.parse).1.found <;>
      simp [hex, hf, dedupOutcome]

theorem foldl_scan_dedup (l : List Attachment) :
    ∀ acc : ScanResult,
      l.foldl (scanStep (dedupStr SEARCH_TERMS)) (dedupScan acc)
        = dedupScan (l.foldl (scanStep SEARCH_TERMS) acc) := by
  induction l with
  | nil => intro acc; rfl
  | cons a t ih =>
    intro acc
    rw [List.foldl_cons, List.foldl_cons, scanStep_dedup, ih]

theorem any_cond_iff_flatMap_ne (terms : List String) (l : List Attachment) :
    l.any (scanCond terms) = true ↔ l.flatMap (scanEntry terms) ≠ [] := by
  induction l with
  | nil => simp
  | cons a t ih =>
    cases hc : scanCond terms a <;> simp [scanEntry, hc, ih]

theorem process_fields (terms : List String) (l : List Attachment) :
    (process_excel_attachments terms l).name_found = l.any (scanCond terms) ∧
    (process_excel_attachments terms l).found_in_files
      = l.flatMap (scanEntry terms) ∧
    (process_excel_attachments terms l).excel_attachments
      = l.countP (fun a => isExcelFile (effFilename a.filename)) := by
  cases hemp : l.isEmpty
  · obtain ⟨h1, h2, h3⟩ := foldl_scan_fields terms l
      { has_attachments := true, excel_attachments := 0, name_found := false
        found_in_files := [], total_attachments := l.length, error := none }
    unfold process_excel_attachments
    simp only [hemp, Bool.false_eq_true, if_false, h1, h2, h3]
    simp
  · have : l = [] := List.isEmpty_iff.mp hemp
    subst this
    simp [process_excel_attachments]

/-! ## Claim theorems -/

/-- C1 (counterexample).  The claim says that when the classifier path fails
the orchestrator returns exactly the Keyword Matcher + Fallback Field
Extractor result (`_fallback_analysis_keywords`).  At keyword list
`["placement"]`, subject `""`, sender `"offer@x.com"` and the
capability-unavailable failure, the orchestrator instead returns the
adapter's internal fallback, which marks the email placement-related (the
combined subject+sender text contains `"offer"`) while
`_fallback_analysis_keywords` does not (no sender indicator, no keyword in
the empty subject). -/
theorem C1_counterexample :
    analyze_placement_email ["placement"] .unavailable "" "offer@x.com"
      ≠ fallbackAnalysisKeywords ["placement"] "" "offer@x.com" := by decide

/-- C1 (amended).  Whenever the intelligent classifier path fails with any
of the defined error kinds, the orchestrator `analyze(subject, sender,
body)` returns exactly the adapter's internal simple fallback
`_fallback_placement_analysis(subject, sender)`: `is_placement_related` is
the indicator scan over the case-folded combined `subject + " " + sender`
text, company and role come from the shared fallback field extraction, and
`deadline`/`salary`/`location`/`job_type`/`requirements` are all absent
(null).  The orchestrator-level keyword fallback is not what is returned. -/
theorem C1_amended_fallback (keywords : List String) (resp : LLMResponse)
    (subject sender : String) (herr : isClassifierErrorCase resp = true) :
    analyze_placement_email keywords resp subject sender
      = fallbackPlacementAnalysis subject sender := by
  cases resp with
  | unavailable => rfl
  | serviceError => rfl
  | empty => rfl
  | malformed => rfl
  | parsed d =>
    have hnone : d.is_placement_related.isNone = true := herr
    simp [analyze_placement_email, analyze_placement_email_llm, hnone]

/-- Witness for C1's amended theorem at a concrete failing input. -/
theorem C1_witness :
    isClassifierErrorCase LLMResponse.unavailable = true ∧
    analyze_placement_email [] .unavailable "Hi" "x@y.com"
      = fallbackPlacementAnalysis "Hi" "x@y.com" :=
  ⟨rfl, C1_amended_fallback [] .unavailable "Hi" "x@y.com" rfl⟩

/-- C2.  For every configured keyword list, classifier outcome (including
the classifier-unavailable condition) and input strings (including empty
ones), the orchestrator returns a dictionary in which all of
`is_placement_related`, `company`, `role`, `deadline`, `salary`,
`location`, `type` and `requirements` are present; and on the parsed-
response path every key the response lacked is filled with its documented
default (`"Unknown"`, `"Position"`, null). -/
theorem C2_always_populated (keywords : List String) (resp : LLMResponse)
    (subject sender : String) :
    fullyPopulated (analyze_placement_email keywords resp subject sender) ∧
    (∀ d : AnalysisDict, resp = .parsed d → d.is_placement_related.isSome = true →
      ((d.company = none →
          (analyze_placement_email keywords resp subject sender).company
            = some (.jstr "Unknown")) ∧
       (d.role = none →
          (analyze_placement_email keywords resp subject sender).role
            = some (.jstr "Position")) ∧
       (d.deadline = none →
          (analyze_placement_email keywords resp subject sender).deadline
            = some .jnull) ∧
       (d.salary = none →
          (analyze_placement_email keywords resp subject sender).salary
            = some .jnull) ∧
       (d.location = none →
          (analyze_placement_email keywords resp subject sender).location
            = some .jnull) ∧
       (d.jobType = none →
          (analyze_placement_email keywords resp subject sender).jobType
            = some .jnull) ∧
       (d.requirements = none →
          (analyze_placement_email keywords resp subject sender).requirements
            = some .jnull))) := by
  constructor
  · cases resp with
    | parsed d =>
      by_cases h : d.is_placement_related.isNone = true <;>
        simp [analyze_placement_email, analyze_placement_email_llm, h,
          fillExpectedFields, fullyPopulated, fallbackPlacementAnalysis]
    | unavailable =>
      simp [analyze_placement_email, analyze_placement_email_llm,
        fullyPopulated, fallbackPlacementAnalysis]
    | serviceError =>
      simp [analyze_placement_email, analyze_placement_email_llm,
        fullyPopulated, fallbackPlacementAnalysis]
    | empty =>
      simp [analyze_placement_email, analyze_placement_email_llm,
        fullyPopulated, fallbackPlacementAnalysis]
    | malformed =>
      simp [analyze_placement_email, analyze_placement_email_llm,
        fullyPopulated, fallbackPlacementAnalysis]
  · intro d hd hsome
    subst hd
    have hnone : d.is_placement_related.isNone = false := by
      simp [Option.isNone_eq_false_iff, ← Option.isSome_iff_exists, hsome]
    refine ⟨?_, ?_, ?_, ?_, ?_, ?_, ?_⟩ <;> intro h <;>
      simp [analyze_placement_email, analyze_placement_email_llm, hnone,
        fillExpectedFields, h]

/-- Witness for C2 at a concrete parsed response missing every optional
key. -/
theorem C2_witness :
    fullyPopulated (analyze_placement_email []
      (.parsed ⟨some (.jbool true), none, none, none, none, none, none, none⟩)
      "s" "m@c.co") ∧
    (analyze_placement_email []
      (.parsed ⟨some (.jbool true), none, none, none, none, none, none, none⟩)
      "s" "m@c.co").company = some (.jstr "Unknown") :=
  ⟨(C2_always_populated []
      (.parsed ⟨some (.jbool true), none, none, none, none, none, none, none⟩)
      "s" "m@c.co").1,
   ((C2_always_populated []
      (.parsed ⟨some (.jbool true), none, none, none, none, none, none, none⟩)
      "s" "m@c.co").2
      ⟨some (.jbool true), none, none, none, none, none, none, none⟩ rfl rfl).1 rfl⟩

/-- C3 (counterexample).  The claim says that on the capability-unavailable
condition the adapter fails with a `ClassifierError` and never substitutes
a fallback classification result.  Tracing the source, the adapter instead
returns normally, and the value it returns is precisely the substituted
fallback result `_fallback_placement_analysis(subject, sender)`. -/
theorem C3_counterexample :
    (analyze_placement_email_llm .unavailable "a" "b@c.org").isOk = true ∧
    analyze_placement_email_llm .unavailable "a" "b@c.org"
      = .ok (fallbackPlacementAnalysis "a" "b@c.org") :=
  ⟨rfl, rfl⟩

/-- C3 (amended).  On every defined failure condition (capability
unavailable, transport failure, empty response, malformed JSON, missing
mandatory field) the adapter does not fail: it itself substitutes and
returns the fallback classification result
`_fallback_placement_analysis(subject, sender)` — the fallback
responsibility the specification assigns to the orchestrator is discharged
inside the adapter. -/
theorem C3_amended_adapter_returns_fallback (resp : LLMResponse)
    (subject sender : String) (herr : isClassifierErrorCase resp = true) :
    analyze_placement_email_llm resp subject sender
      = .ok (fallbackPlacementAnalysis subject sender) := by
  cases resp with
  | unavailable => rfl
  | serviceError => rfl
  | empty => rfl
  | malformed => rfl
  | parsed d =>
    have hnone : d.is_placement_related.isNone = true := herr
    simp [analyze_placement_email_llm, hnone]

/-- Witness for C3's amended theorem at a concrete failing input. -/
theorem C3_witness :
    isClassifierErrorCase LLMResponse.empty = true ∧
    analyze_placement_email_llm .empty "Update" "hr@tcs.com"
      = .ok (fallbackPlacementAnalysis "Update" "hr@tcs.com") :=
  ⟨rfl, C3_amended_adapter_returns_fallback .empty "Update" "hr@tcs.com" rfl⟩

/-- C4.  Invariants of the Attachment Scanner: `name_found` is true iff
`found_in_files` is non-empty; `excel_attachments` counts exactly the
attachments whose (effective) filename has a recognized spreadsheet
extension, independent of parsing; and appending a spreadsheet-named
attachment whose payload is corrupt (both pandas reads fail) increments
`excel_attachments` by one while leaving `found_in_files` unchanged — and
since the scanner is a total function, no input crashes it. -/
theorem C4_scanner_invariants (terms : List String) (atts : List Attachment) :
    ((process_excel_attachments terms atts).name_found = true ↔
      (process_excel_attachments terms atts).found_in_files ≠ []) ∧
    (process_excel_attachments terms atts).excel_attachments
      = atts.countP (fun a => isExcelFile (effFilename a.filename)) ∧
    (∀ att : Attachment, att.parse = .failBoth →
      isExcelFile (effFilename att.filename) = true →
      (process_excel_attachments terms (atts ++ [att])).excel_attachments
        = (process_excel_attachments terms atts).excel_attachments + 1 ∧
      (process_excel_attachments terms (atts ++ [att])).found_in_files
        = (process_excel_attachments terms atts).found_in_files) := by
  obtain ⟨hn, hf, he⟩ := process_fields terms atts
  refine ⟨?_, he, ?_⟩
  · rw [hn, hf]
    exact any_cond_iff_flatMap_ne terms atts
  · intro att hparse hex
    obtain ⟨hn2, hf2, he2⟩ := process_fields terms (atts ++ [att])
    have hcond : scanCond terms att = false := by
      simp [scanCond, hparse, search_excel_content]
    constructor
    · rw [he2, he, List.countP_append]
      simp [List.countP_cons, hex]
    · rw [hf2, hf, List.flatMap_append]
      simp [scanEntry, hcond]

/-- Witness for C4 at a singleton list holding a corrupt spreadsheet. -/
theorem C4_witness :
    (((process_excel_attachments SEARCH_TERMS
        [⟨some "broken.xlsx", ParseOutcome.failBoth⟩]).name_found = true) ↔
      (process_excel_attachments SEARCH_TERMS
        [⟨some "broken.xlsx", ParseOutcome.failBoth⟩]).found_in_files ≠ []) ∧
    ((process_excel_attachments SEARCH_TERMS
        ([] ++ [⟨some "broken.xlsx", ParseOutcome.failBoth⟩])).excel_attachments
      = (process_excel_attachments SEARCH_TERMS []).excel_attachments + 1 ∧
     (process_excel_attachments SEARCH_TERMS
        ([] ++ [⟨some "broken.xlsx", ParseOutcome.failBoth⟩])).found_in_files
      = (process_excel_attachments SEARCH_TERMS []).found_in_files) :=
  ⟨(C4_scanner_invariants SEARCH_TERMS
      [⟨some "broken.xlsx", ParseOutcome.failBoth⟩]).1,
   (C4_scanner_invariants SEARCH_TERMS []).2.2
      ⟨some "broken.xlsx", ParseOutcome.failBoth⟩ rfl (by decide)⟩

/-- C5 (code bug).  The claim — backed by the source's own
`HTTPException(status_code=400, detail="No valid updates provided")` —
expects a POST with no recognized non-empty field to be rejected with a
client error.  The code raises that 400 inside its own `try`, and the
blanket `except Exception` (main.py 61-62) catches it — FastAPI's
`HTTPException` derives from `Exception` — and re-raises it as
`HTTPException(500, ...)`, a server error.  Evaluating the embedded
endpoint: an empty-`specialization` submission yields status 500 with the
profile unchanged, while a submission with a non-empty `specialization`
succeeds with status 200. -/
theorem C5_empty_update_yields_500 :
    update_profile STUDENT_PROFILE ⟨""⟩ = (500, STUDENT_PROFILE) ∧
    (update_profile STUDENT_PROFILE ⟨"AI & ML"⟩).1 = 200 ∧
    (update_profile STUDENT_PROFILE ⟨"AI & ML"⟩).2.lookup "specialization"
      = some "AI & ML" :=
  ⟨rfl, rfl, rfl⟩

/-- C6.  The Keyword Matcher returns true whenever the case-folded sender
contains any recognized department indicator, regardless of subject; and
returns false whenever no sender indicator appears in the sender and no
configured keyword appears case-insensitively in the subject. -/
theorem C6_keyword_matcher_bounds (keywords : List String) (subject sender : String) :
    (∀ indicator ∈ senderIndicators,
      strContains (pyLower sender) indicator = true →
      keywordMatcher keywords subject sender = true) ∧
    ((∀ indicator ∈ senderIndicators,
        strContains (pyLower sender) indicator = false) →
     (∀ k ∈ keywords, strContains (pyLower subject) (pyLower k) = false) →
     keywordMatcher keywords subject sender = false) := by
  constructor
  · intro ind hmem hc
    have hany : senderIndicators.any (fun i => strContains (pyLower sender) i) = true :=
      List.any_eq_true.mpr ⟨ind, hmem, hc⟩
    simp [keywordMatcher, hany]
  · intro h1 h2
    have hany : senderIndicators.any (fun i => strContains (pyLower sender) i) = false := by
      rw [List.any_eq_false]
      intro x hx
      simp [h1 x hx]
    have hkw : keywords.any (fun k => strContains (pyLower subject) (pyLower k)) = false := by
      rw [List.any_eq_false]
      intro x hx
      simp [h2 x hx]
    simp [keywordMatcher, hany, hkw]

/-- Witness for C6: a sender-indicator hit and a no-match input. -/
theorem C6_witness :
    keywordMatcher ["drive"] "Hello" "hr@tcs.com" = true ∧
    keywordMatcher ["drive"] "Weekend Sale" "sales@amazon.com" = false :=
  ⟨(C6_keyword_matcher_bounds ["drive"] "Hello" "hr@tcs.com").1
      "hr" (by decide) (by decide),
   (C6_keyword_matcher_bounds ["drive"] "Weekend Sale" "sales@amazon.com").2
      (by decide) (by decide)⟩

/-- C7.  The Fallback Field Extractor's company equals the title-cased
first label of the sender's domain when the sender contains `@` and the
case-folded domain contains neither `placements` nor `noreply`, else
`"Unknown"`; and its role equals the title-cased first keyword of the
fixed ordered list that occurs in the case-folded subject — list order
breaking ties — else `"Position"`. -/
theorem C7_extractor_matches_spec (keywords : List String) (subject sender : String) :
    (fallbackAnalysisKeywords keywords subject sender).company
      = some (.jstr (specCompany sender)) ∧
    (fallbackAnalysisKeywords keywords subject sender).role
      = some (.jstr (specRole subject)) := by
  refine ⟨?_, ?_⟩
  · have h : fallbackCompany sender = specCompany sender := by
      unfold fallbackCompany specCompany
      cases hA : strContains sender "@"
      · simp [hA]
      · cases hP : strContains (pyLower ((pySplit sender '@').getD 1 "")) "placements" <;>
          cases hN : strContains (pyLower ((pySplit sender '@').getD 1 "")) "noreply" <;>
            simp only [List.getD_eq_getElem?_getD] at hP hN <;>
              simp [hA, hP, hN]
    simp [fallbackAnalysisKeywords, h]
  · have h : fallbackRole subject = specRole subject :=
      roleLoop_eq_find (pyLower subject) roleKeywords
    simp [fallbackAnalysisKeywords, h]

/-- C8.  On every exit path of the per-attachment scan — successful parse,
parse failure (with or without a successful plain retry), or no match —
the filesystem trace begins with the creation of the transient file and
ends with its deletion: the file is released before the scan returns. -/
theorem C8_temp_file_released (terms : List String) (tempPath : String)
    (parse : ParseOutcome) :
    ((search_excel_content terms tempPath parse).2).head?
        = some (.create tempPath) ∧
    ((search_excel_content terms tempPath parse).2).getLast?
        = some (.unlink tempPath) := by
  cases parse <;> simp [search_excel_content]

/-- C9 (counterexample).  The claim quantifies over every
AttachmentScanResult and demands that whenever `name_found` is true the
rendered output contain every matched term.  For the record with
`has_attachments = true`, `excel_attachments = 0`, `name_found = true` and
a match entry for `"Akkilesh"`, the formatter's per-file detail is guarded
by `excel_attachments > 0` (attachment_processor.py 172), the parts list
stays empty, and the function returns `None` — no output contains the
term. -/
theorem C9_counterexample :
    (⟨true, 0, true, [⟨"results.xlsx", [⟨"Sheet1", ["Akkilesh"]⟩]⟩], 1, none⟩ :
        ScanResult).name_found = true ∧
    format_attachment_summary
        ⟨true, 0, true, [⟨"results.xlsx", [⟨"Sheet1", ["Akkilesh"]⟩]⟩], 1, none⟩
      = none :=
  ⟨rfl, by decide⟩

/-- C9 (amended).  Formatting a result with `has_attachments = false`
yields the absent signal; and when `has_attachments` is true, `name_found`
is true and `excel_attachments` is positive, the rendered output contains,
as a literal substring, every term listed in every `terms_found` entry of
`found_in_files`. -/
theorem C9_amended_format (r : ScanResult) :
    (r.has_attachments = false → format_attachment_summary r = none) ∧
    (r.has_attachments = true → r.name_found = true → 0 < r.excel_attachments →
      ∃ s, format_attachment_summary r = some s ∧
        ∀ fi ∈ r.found_in_files, ∀ m ∈ fi.matchEntries, ∀ t ∈ m.terms_found,
          strContains s t = true) := by
  constructor
  · intro h
    simp [format_attachment_summary, h]
  · intro h0 h1 h2
    have hform : format_attachment_summary r
        = some (pyJoin "\n"
            (("📎 " ++ toString r.excel_attachments ++ " Excel attachment" ++
                (if r.excel_attachments > 1 then "s" else "") ++ " found") ::
             "✅ Your name/ID found in attachments!" ::
             (r.found_in_files.flatMap (fun fi =>
                ["  📋 " ++ fi.filename] ++
                  fi.matchEntries.map (fun m =>
                    "    🔍 Found: " ++ pyJoin ", " m.terms_found)) ++
              (match r.error with
               | some e => ["⚠️ Error processing attachments: " ++ e]
               | none => [])))) := by
      simp only [format_attachment_summary, h0, h1, Bool.not_true,
        Bool.false_eq_true, if_false, if_true, gt_iff_lt, h2,
        List.cons_append, List.nil_append, List.singleton_append,
        List.isEmpty_cons, Bool.false_eq_true]
    refine ⟨_, hform, ?_⟩
    intro fi hfi m hm t ht
    rw [strContains_iff]
    have hterm : t.data <:+: (pyJoin ", " m.terms_found).data :=
      pyJoin_contains_mem _ _ _ ht
    have hline : t.data <:+: ("    🔍 Found: " ++ pyJoin ", " m.terms_found).data := by
      rw [String.data_append]
      exact hterm.trans (List.suffix_append _ _).isInfix
    have hmem : ("    🔍 Found: " ++ pyJoin ", " m.terms_found) ∈
        (("📎 " ++ toString r.excel_attachments ++ " Excel attachment" ++
            (if r.excel_attachments > 1 then "s" else "") ++ " found") ::
         "✅ Your name/ID found in attachments!" ::
         (r.found_in_files.flatMap (fun fi =>
            ["  📋 " ++ fi.filename] ++
              fi.matchEntries.map (fun m =>
                "    🔍 Found: " ++ pyJoin ", " m.terms_found)) ++
          (match r.error with
           | some e => ["⚠️ Error processing attachments: " ++ e]
           | none => []))) := by
      apply List.mem_cons_of_mem
      apply List.mem_cons_of_mem
      apply List.mem_append_left
      refine List.mem_flatMap.mpr ⟨fi, hfi, ?_⟩
      apply List.mem_append_right
      exact List.mem_map.mpr ⟨m, hm, rfl⟩
    exact hline.trans (pyJoin_contains_mem "\n" _ _ hmem)

/-- Witness for C9's amended theorem at a concrete one-match result. -/
theorem C9_witness :
    format_attachment_summary
        ⟨true, 1, true, [⟨"r.xlsx", [⟨"S1", ["22BCE1385"]⟩]⟩], 1, none⟩
      = some "📎 1 Excel attachment found\n✅ Your name/ID found in attachments!\n  📋 r.xlsx\n    🔍 Found: 22BCE1385" ∧
    strContains
      "📎 1 Excel attachment found\n✅ Your name/ID found in attachments!\n  📋 r.xlsx\n    🔍 Found: 22BCE1385"
      "22BCE1385" = true := by
  obtain ⟨s, hs, hc⟩ :=
    (C9_amended_format
      ⟨true, 1, true, [⟨"r.xlsx", [⟨"S1", ["22BCE1385"]⟩]⟩], 1, none⟩).2
      rfl rfl (by decide)
  have hS : format_attachment_summary
      ⟨true, 1, true, [⟨"r.xlsx", [⟨"S1", ["22BCE1385"]⟩]⟩], 1, none⟩
      = some "📎 1 Excel attachment found\n✅ Your name/ID found in attachments!\n  📋 r.xlsx\n    🔍 Found: 22BCE1385" := by
    decide
  rw [hS] at hs
  injection hs with hs'
  subst hs'
  exact ⟨hS, hc ⟨"r.xlsx", [⟨"S1", ["22BCE1385"]⟩]⟩ (by simp)
    ⟨"S1", ["22BCE1385"]⟩ (by simp) "22BCE1385" (by simp)⟩

/-- C10 (counterexample).  The claim says the duplicate token in
`SEARCH_TERMS` has no observable effect.  Scanning a sheet whose text
contains `22BCE1385` with the configured list records the term twice in
`terms_found` (once per occurrence in the list), while the de-duplicated
list records it once, so the two AttachmentScanResults differ. -/
theorem C10_counterexample :
    process_excel_attachments SEARCH_TERMS
        [⟨some "list.xlsx", .ok [("Sheet1", "roll 22BCE1385 selected")]⟩]
      ≠ process_excel_attachments (dedupStr SEARCH_TERMS)
        [⟨some "list.xlsx", .ok [("Sheet1", "roll 22BCE1385 selected")]⟩] := by
  decide

/-- C10 (amended).  For every attachment list, scanning with the
de-duplicated search-term list yields exactly the configured-list result
with each match entry's `terms_found` sequence de-duplicated (first
occurrences kept, order preserved); all other fields — the per-file and
per-sheet match structure, `name_found`, the counts and the error field —
are unchanged.  The duplicate token thus never affects which sheets or
files match, only the repetition inside `terms_found`. -/
theorem C10_amended_dedup (atts : List Attachment) :
    process_excel_attachments (dedupStr SEARCH_TERMS) atts
      = dedupScan (process_excel_attachments SEARCH_TERMS atts) := by
  cases hemp : atts.isEmpty
  · simp only [process_excel_attachments, hemp, Bool.false_eq_true, if_false]
    exact foldl_scan_dedup atts
      { has_attachments := true, excel_attachments := 0, name_found := false
        found_in_files := [], total_attachments := atts.length, error := none }
  · have h : atts = [] := List.isEmpty_iff.mp hemp
    subst h
    simp [process_excel_attachments, dedupScan]

end PlacementMail
